import Mathlib

/-!
# Verification of the financial-protection analysis core

A shallow embedding of `analyze_financial_protection` from `src/main.py`
(together with the data shapes of `src/schemas.py`), and proofs about it.

Modelling conventions:
* Python `float` values are modelled as `ℚ` (exact rational arithmetic).
* Python `int` is `ℤ` (or `ℕ` where the schema forces non-negativity,
  e.g. `dependents`).
* Python `round(x, 2)` (round-half-to-even at two decimals) is `round2`.
* Python `f"{x:.kf}"` fixed-point formatting is `fmtFixed k x`.
* The `dict` used for per-category totals is an insertion-ordered
  association list (`List (String × ℚ)`) with lookup default `0`,
  exactly as `category_totals.get(cat, 0)` behaves.
* Optional `budgets` is a `List (String × ℚ)`; both Python `None` and the
  empty dict are falsy in `if profile.budgets:`, and both are modelled by
  the empty list.
-/

/-- Values that can appear in an alert's free-form `data` payload:
numbers or strings. -/
inductive AVal where
  | num (q : ℚ)
  | str (s : String)
deriving DecidableEq, Repr

/-- `FinancialProfile` from `src/schemas.py` (lines 41-52). -/
structure FinancialProfile where
  email : String
  monthly_income : ℚ
  monthly_expenses : ℚ
  savings : ℚ
  dependents : ℕ
  risk_tolerance : String
  insurance_health : Bool
  insurance_renters : Bool
  insurance_auto : Bool
  insurance_life : Bool
  budgets : List (String × ℚ)
deriving DecidableEq, Repr

/-- `Transaction` from `src/schemas.py` (lines 54-61). -/
structure Transaction where
  date : Option String
  description : String
  merchant : Option String
  category : Option String
  amount : ℚ
  «type» : Option String
deriving DecidableEq, Repr

/-- `Alert` from `src/schemas.py` (lines 67-72). -/
structure Alert where
  user_email : String
  alert_type : String
  severity : String
  message : String
  data : List (String × AVal)
deriving DecidableEq, Repr

/-- `AnalysisResult` from `src/schemas.py` (lines 74-78). -/
structure AnalysisResult where
  score : ℤ
  summary : String
  alerts : List Alert
  stats : List (String × ℚ)
deriving DecidableEq, Repr

/-- Round a rational to the nearest integer, ties to even
(the rounding used by Python `round` and float formatting). -/
def roundHalfEven (x : ℚ) : ℤ :=
  let f := Int.floor x
  let frac := x - f
  if frac < 1/2 then f
  else if 1/2 < frac then f + 1
  else if f % 2 = 0 then f else f + 1

/-- Python `round(x, 2)`: round to the nearest multiple of 1/100. -/
def round2 (x : ℚ) : ℚ := (roundHalfEven (x * 100) : ℚ) / 100

/-- Python `f"{x:.precf}"`: fixed-point rendering of `x` with `prec`
digits after the decimal point. -/
def fmtFixed (prec : ℕ) (q : ℚ) : String :=
  let scaled := roundHalfEven (q * (10 ^ prec : ℕ))
  let n := scaled.natAbs
  let ip := n / 10 ^ prec
  let fp := n % 10 ^ prec
  let fpStr := toString fp
  let pad := String.join (List.replicate (prec - fpStr.length) "0")
  (if q < 0 then "-" else "") ++ toString ip ++ "." ++ pad ++ fpStr

/-- Lookup in the category-totals dict with default `0`:
Python `category_totals.get(cat, 0)`. -/
def catGet : List (String × ℚ) → String → ℚ
  | [], _ => 0
  | (k, w) :: rest, c => if k = c then w else catGet rest c

/-- Dict assignment `category_totals[cat] = v`, preserving insertion
order and appending new keys at the end. -/
def updateCat : List (String × ℚ) → String → ℚ → List (String × ℚ)
  | [], c, v => [(c, v)]
  | (k, w) :: rest, c, v =>
      if k = c then (c, v) :: rest else (k, w) :: updateCat rest c v

/-- One iteration of the transaction loop of `src/main.py` lines 71-77:
positive amounts are outflows; they are added to `total_debits` and, when
the category is truthy (present and non-empty), to its per-category total. -/
def aggStep (acc : ℚ × List (String × ℚ)) (t : Transaction) :
    ℚ × List (String × ℚ) :=
  if 0 < t.amount then
    match t.category with
    | some c =>
        if c ≠ "" then
          (acc.1 + t.amount, updateCat acc.2 c (catGet acc.2 c + t.amount))
        else (acc.1 + t.amount, acc.2)
    | none => (acc.1 + t.amount, acc.2)
  else acc

/-- The transaction aggregation loop of `src/main.py` lines 69-77,
starting from `total_debits = 0.0` and an empty dict. -/
def aggregate (ts : List Transaction) : ℚ × List (String × ℚ) :=
  ts.foldl aggStep (0, [])

/-- `total_debits` after the loop. -/
def totalDebits (ts : List Transaction) : ℚ := (aggregate ts).1

/-- `category_totals` after the loop. -/
def categoryTotals (ts : List Transaction) : List (String × ℚ) :=
  (aggregate ts).2

/-- `monthly_net = income - expenses` (`src/main.py` line 65). -/
def monthlyNet (p : FinancialProfile) : ℚ :=
  p.monthly_income - p.monthly_expenses

/-- `burn_rate_months = (savings / expenses) if expenses > 0 else 12.0`
(`src/main.py` line 66). -/
def burnRateMonths (p : FinancialProfile) : ℚ :=
  if 0 < p.monthly_expenses then p.savings / p.monthly_expenses else 12

/-- `target_months = 3 if risk == "high" else 6 if risk == "medium" else 9`
(`src/main.py` line 82). -/
def targetMonths (rt : String) : ℕ :=
  if rt = "high" then 3 else if rt = "medium" then 6 else 9

/-- Emergency-fund rule, `src/main.py` lines 83-91: emits one alert when
`burn_rate_months < target_months`. -/
def emergencyAlert (p : FinancialProfile) : List Alert :=
  if burnRateMonths p < (targetMonths p.risk_tolerance : ℚ) then
    [{ user_email := p.email
       alert_type := "emergency_fund_shortfall"
       severity :=
         if burnRateMonths p < (targetMonths p.risk_tolerance : ℚ) / 2
         then "high" else "medium"
       message :=
         "Emergency fund covers " ++ fmtFixed 1 (burnRateMonths p) ++
         " months; target is " ++ toString (targetMonths p.risk_tolerance) ++
         " months."
       data :=
         [("shortfall", AVal.num (round2 (max 0
             ((targetMonths p.risk_tolerance : ℚ) * p.monthly_expenses
               - p.savings)))),
          ("target_months", AVal.num (targetMonths p.risk_tolerance : ℚ))] }]
  else []

/-- Health-insurance rule, `src/main.py` lines 94-101. -/
def healthAlert (p : FinancialProfile) : List Alert :=
  if p.insurance_health then []
  else
    [{ user_email := p.email
       alert_type := "missing_health_insurance"
       severity := "high"
       message := "Health insurance not detected."
       data := [] }]

/-- Renters-insurance rule, `src/main.py` lines 102-109. -/
def rentersAlert (p : FinancialProfile) : List Alert :=
  if p.insurance_renters then []
  else
    [{ user_email := p.email
       alert_type := "missing_renters_insurance"
       severity := "medium"
       message := "Renter\x27s/home insurance not detected."
       data := [] }]

/-- Auto-insurance rule, `src/main.py` lines 110-117: fires only when the
flag is off AND there is positive outflow. -/
def autoAlert (p : FinancialProfile) (total_debits : ℚ) : List Alert :=
  if ¬p.insurance_auto ∧ 0 < total_debits then
    [{ user_email := p.email
       alert_type := "missing_auto_insurance"
       severity := "medium"
       message := "Auto insurance not detected."
       data := [] }]
  else []

/-- Life-insurance rule, `src/main.py` lines 118-125. -/
def lifeAlert (p : FinancialProfile) : List Alert :=
  if 0 < p.dependents ∧ ¬p.insurance_life then
    [{ user_email := p.email
       alert_type := "missing_life_insurance"
       severity := "high"
       message := "Life insurance recommended when you have dependents."
       data := [("dependents", AVal.num (p.dependents : ℚ))] }]
  else []

/-- Overspending rule, `src/main.py` lines 128-135. -/
def overspendingAlert (p : FinancialProfile) (total_debits : ℚ) : List Alert :=
  if 0 < p.monthly_income ∧ p.monthly_income * (11/10) < total_debits then
    [{ user_email := p.email
       alert_type := "overspending"
       severity := "medium"
       message := "Recent spending exceeds monthly income by more than 10%."
       data := [("income", AVal.num p.monthly_income),
                ("spend", AVal.num (round2 total_debits))] }]
  else []

/-- Budget-adherence rules, `src/main.py` lines 138-148: one alert per
budget entry whose limit is truthy (non-zero) and exceeded by spending. -/
def budgetAlerts (p : FinancialProfile) (ctotals : List (String × ℚ)) :
    List Alert :=
  if p.budgets = [] then []
  else
    p.budgets.filterMap (fun cl =>
      if cl.2 ≠ 0 ∧ cl.2 < catGet ctotals cl.1 then
        some { user_email := p.email
               alert_type := "budget_exceeded"
               severity :=
                 if catGet ctotals cl.1 ≤ cl.2 * (11/10)
                 then "low" else "medium"
               message :=
                 "Spending in " ++ cl.1 ++ " is " ++
                 fmtFixed 2 (catGet ctotals cl.1) ++
                 " which exceeds your budget " ++ fmtFixed 2 cl.2 ++ "."
               data := [("category", AVal.str cl.1),
                        ("spent", AVal.num (round2 (catGet ctotals cl.1))),
                        ("limit", AVal.num cl.2)] }
      else none)

/-- The full alert battery in source order (`src/main.py` lines 79-148). -/
def alertsOf (p : FinancialProfile) (ts : List Transaction) : List Alert :=
  emergencyAlert p ++ healthAlert p ++ rentersAlert p ++
  autoAlert p (totalDebits ts) ++ lifeAlert p ++
  overspendingAlert p (totalDebits ts) ++
  budgetAlerts p (categoryTotals ts)

/-- Count of missing coverages, `src/main.py` lines 155-160.  Note the
auto term is unconditional on `total_debits`. -/
def missingInsurance (p : FinancialProfile) : ℕ :=
  (if p.insurance_health then 0 else 1) +
  (if p.insurance_renters then 0 else 1) +
  (if p.insurance_auto then 0 else 1) +
  (if 0 < p.dependents ∧ ¬p.insurance_life then 1 else 0)

/-- Emergency-fund score deduction,
`int(max(0, (target_months - burn_rate_months) / target_months) * 40)`
(`src/main.py` line 153); the argument is non-negative so Python `int`
truncation coincides with `floor`. -/
def emergencyDeduction (p : FinancialProfile) : ℤ :=
  Int.floor (max 0 (((targetMonths p.risk_tolerance : ℚ) - burnRateMonths p)
    / (targetMonths p.risk_tolerance : ℚ)) * 40)

/-- Cash-flow score deduction, `src/main.py` lines 163-166. -/
def cashflowDeduction (p : FinancialProfile) : ℤ :=
  if monthlyNet p < 0 then 20
  else if monthlyNet p < p.monthly_expenses * (1/10) then 10
  else 0

/-- The protection score, `src/main.py` lines 151-168: start at 100,
subtract the three deductions, clamp to [0, 100].  It does not depend on
the transactions. -/
def scoreOf (p : FinancialProfile) : ℤ :=
  max 0 (min 100
    (100 - emergencyDeduction p - (missingInsurance p : ℤ) * 10
      - cashflowDeduction p))

/-- The `stats` mapping, `src/main.py` lines 170-177. -/
def statsOf (p : FinancialProfile) (ts : List Transaction) :
    List (String × ℚ) :=
  [("monthly_income", p.monthly_income),
   ("monthly_expenses", p.monthly_expenses),
   ("monthly_net", round2 (monthlyNet p)),
   ("savings", p.savings),
   ("burn_rate_months", round2 (burnRateMonths p)),
   ("total_spend", round2 (totalDebits ts))]

/-- The `summary` string, `src/main.py` lines 179-183.  Note the net cash
flow is rendered with TWO decimal places (`:.2f`) and the burn rate with
one (`:.1f`). -/
def summaryOf (p : FinancialProfile) (ts : List Transaction) : String :=
  "Protection score " ++ toString (scoreOf p) ++ "/100. Net cash flow " ++
  fmtFixed 2 (monthlyNet p) ++ " per month. Emergency fund covers " ++
  fmtFixed 1 (burnRateMonths p) ++ " months (target " ++
  toString (targetMonths p.risk_tolerance) ++ "). Generated " ++
  toString (alertsOf p ts).length ++ " alerts."

/-- `analyze_financial_protection` from `src/main.py` lines 58-185. -/
def analyze_financial_protection (p : FinancialProfile)
    (ts : List Transaction) : AnalysisResult :=
  { score := scoreOf p
    summary := summaryOf p ts
    alerts := alertsOf p ts
    stats := statsOf p ts }

/-- Python truthiness of the optional `category` field in
`if t.category:` (`src/main.py` line 76): present and non-empty. -/
def catTruthy (o : Option String) : Bool :=
  match o with
  | some c => decide (c ≠ "")
  | none => false

/-- Total of positive (outflow) amounts of a transaction list, stated as
a plain sum for reasoning about the aggregation loop. -/
def sumDebits (ts : List Transaction) : ℚ :=
  (ts.map fun t => if 0 < t.amount then t.amount else 0).sum

/-- Total of positive amounts carrying the (non-empty) category `c`,
stated as a plain sum for reasoning about the aggregation loop. -/
def sumCat (c : String) (ts : List Transaction) : ℚ :=
  (ts.map fun t =>
    if 0 < t.amount ∧ t.category = some c ∧ c ≠ "" then t.amount else 0).sum

/-- Scenario A profile of the specification: income 5000, expenses 4000,
savings 24000, no dependents, medium risk, no insurance, no budgets. -/
def scenarioA : FinancialProfile :=
  { email := "user@example.com", monthly_income := 5000,
    monthly_expenses := 4000, savings := 24000, dependents := 0,
    risk_tolerance := "medium", insurance_health := false,
    insurance_renters := false, insurance_auto := false,
    insurance_life := false, budgets := [] }

/-- Scenario B profile of the specification: income 0, expenses 1000,
savings 0, no dependents, default (medium) risk, fully insured. -/
def scenarioB : FinancialProfile :=
  { email := "user@example.com", monthly_income := 0,
    monthly_expenses := 1000, savings := 0, dependents := 0,
    risk_tolerance := "medium", insurance_health := true,
    insurance_renters := true, insurance_auto := true,
    insurance_life := true, budgets := [] }

/-- A profile whose income is 0.001 while all other amounts are 0: its
exact monthly net is not representable at two decimal places. -/
def tinyProfile : FinancialProfile :=
  { email := "tiny@example.com", monthly_income := 1/1000,
    monthly_expenses := 0, savings := 0, dependents := 0,
    risk_tolerance := "medium", insurance_health := true,
    insurance_renters := true, insurance_auto := true,
    insurance_life := true, budgets := [] }

/-- A profile with an unrecognized risk_tolerance value. -/
def fallthroughProfile : FinancialProfile :=
  { email := "r@example.com", monthly_income := 100,
    monthly_expenses := 50, savings := 10, dependents := 1,
    risk_tolerance := "aggressive", insurance_health := false,
    insurance_renters := false, insurance_auto := false,
    insurance_life := false, budgets := [] }

/-- A categorized outflow transaction of amount 3. -/
def tFoodA : Transaction :=
  { date := none, description := "coffee", merchant := none,
    category := some "food", amount := 3, «type» := none }

/-- A categorized outflow transaction of amount 2. -/
def tRentA : Transaction :=
  { date := none, description := "rent", merchant := none,
    category := some "rent", amount := 2, «type» := none }

/-- An inflow transaction (negative amount, no category). -/
def tInflowA : Transaction :=
  { date := none, description := "salary", merchant := none,
    category := none, amount := -5, «type» := none }

theorem catTruthy_iff (o : Option String) :
    catTruthy o = true ↔ ∃ c, o = some c ∧ c ≠ "" := by
  cases o <;> simp [catTruthy]

theorem aggStep_of_nonpos (acc : ℚ × List (String × ℚ)) (t : Transaction)
    (h : ¬ 0 < t.amount) : aggStep acc t = acc := by
  simp [aggStep, h]

theorem aggStep_fst (acc : ℚ × List (String × ℚ)) (t : Transaction) :
    (aggStep acc t).1 = acc.1 + (if 0 < t.amount then t.amount else 0) := by
  by_cases hp : 0 < t.amount
  · rcases hc : t.category with _ | c
    · simp [aggStep, hp, hc]
    · by_cases hcne : c = "" <;> simp [aggStep, hp, hc, hcne]
  · simp [aggStep, hp]

theorem catGet_updateCat (m : List (String × ℚ)) (c c' : String) (v : ℚ) :
    catGet (updateCat m c v) c' = if c = c' then v else catGet m c' := by
  induction m with
  | nil => simp [updateCat, catGet]
  | cons kv m ih =>
      obtain ⟨k, w⟩ := kv
      by_cases hk : k = c
      · subst hk
        rw [show updateCat ((k, w) :: m) k v = (k, v) :: m from by
          simp [updateCat]]
        by_cases hcc : k = c' <;> simp [catGet, hcc]
      · simp only [updateCat, hk, if_false, catGet]
        by_cases hk2 : k = c'
        · subst hk2
          have hck : ¬ c = k := fun hcc => hk hcc.symm
          simp [catGet, hck]
        · simp [catGet, hk2, ih]

theorem aggStep_catGet (acc : ℚ × List (String × ℚ)) (t : Transaction)
    (c : String) :
    catGet (aggStep acc t).2 c = catGet acc.2 c +
      (if 0 < t.amount ∧ t.category = some c ∧ c ≠ "" then t.amount else 0) := by
  by_cases hp : 0 < t.amount
  · rcases hc : t.category with _ | d
    · simp [aggStep, hp, hc]
    · by_cases hd : d = ""
      · subst hd
        simp only [aggStep, hp, if_true, hc]
        simp
        intro h1 h2
        exact absurd h1.symm h2
      · simp only [aggStep, hp, if_true, hc, hd, ne_eq, not_false_iff, if_true]
        rw [catGet_updateCat]
        by_cases hdc : d = c
        · subst hdc
          simp [hd]
        · have hne : ¬ (some d = some c ∧ c ≠ "") := by
            intro ⟨hx, _⟩; exact hdc (Option.some.injEq d c ▸ hx)
          simp [hdc, hne]
  · simp [aggStep, hp]

theorem foldl_aggStep_fst (ts : List Transaction)
    (acc : ℚ × List (String × ℚ)) :
    (ts.foldl aggStep acc).1 = acc.1 + sumDebits ts := by
  induction ts generalizing acc with
  | nil => simp [sumDebits]
  | cons t ts ih =>
      rw [List.foldl_cons, ih, aggStep_fst]
      simp [sumDebits]
      ring

theorem foldl_aggStep_catGet (ts : List Transaction)
    (acc : ℚ × List (String × ℚ)) (c : String) :
    catGet (ts.foldl aggStep acc).2 c = catGet acc.2 c + sumCat c ts := by
  induction ts generalizing acc with
  | nil => simp [sumCat]
  | cons t ts ih =>
      rw [List.foldl_cons, ih, aggStep_catGet]
      simp [sumCat]
      ring

theorem foldl_aggStep_filter (ts : List Transaction)
    (acc : ℚ × List (String × ℚ)) :
    (ts.filter fun t => decide (0 < t.amount)).foldl aggStep acc
      = ts.foldl aggStep acc := by
  induction ts generalizing acc with
  | nil => rfl
  | cons t ts ih =>
      by_cases hp : 0 < t.amount
      · simp only [List.filter_cons, decide_eq_true hp, if_true,
          List.foldl_cons]
        exact ih _
      · simp only [List.filter_cons, decide_eq_false hp, if_false,
          List.foldl_cons, aggStep_of_nonpos _ _ hp]
        exact ih _

theorem sum_updateCat (m : List (String × ℚ)) (c : String) (v : ℚ) :
    ((updateCat m c v).map Prod.snd).sum
      = (m.map Prod.snd).sum + v - catGet m c := by
  induction m with
  | nil => simp [updateCat, catGet]
  | cons kv m ih =>
      obtain ⟨k, w⟩ := kv
      by_cases hk : k = c
      · subst hk
        simp [updateCat, catGet]
        ring
      · simp [updateCat, catGet, hk, ih]
        ring

theorem foldl_aggStep_valSum (ts : List Transaction)
    (acc : ℚ × List (String × ℚ))
    (h : ∀ t ∈ ts, 0 < t.amount → catTruthy t.category = true) :
    (((ts.foldl aggStep acc).2.map Prod.snd).sum) - ((acc.2.map Prod.snd).sum)
      = (ts.foldl aggStep acc).1 - acc.1 := by
  induction ts generalizing acc with
  | nil => simp
  | cons t ts ih =>
      have hts : ∀ t2 ∈ ts, 0 < t2.amount → catTruthy t2.category = true :=
        fun t2 ht2 => h t2 (List.mem_cons_of_mem _ ht2)
      by_cases hp : 0 < t.amount
      · obtain ⟨c, hc, hcne⟩ :=
          (catTruthy_iff t.category).1 (h t (List.mem_cons_self _ _) hp)
        have step : aggStep acc t =
            (acc.1 + t.amount,
              updateCat acc.2 c (catGet acc.2 c + t.amount)) := by
          simp [aggStep, hp, hc, hcne]
        rw [List.foldl_cons, step]
        have hh := ih (acc.1 + t.amount,
          updateCat acc.2 c (catGet acc.2 c + t.amount)) hts
        rw [sum_updateCat] at hh
        dsimp at hh ⊢
        linarith
      · rw [List.foldl_cons, aggStep_of_nonpos _ _ hp]
        exact ih acc hts

theorem emergencyAlert_congr (p q : FinancialProfile)
    (he : p.email = q.email) (hex : p.monthly_expenses = q.monthly_expenses)
    (hs : p.savings = q.savings)
    (ht : targetMonths p.risk_tolerance = targetMonths q.risk_tolerance) :
    emergencyAlert p = emergencyAlert q := by
  unfold emergencyAlert burnRateMonths
  rw [he, hex, hs, ht]

theorem emergencyDeduction_congr (p q : FinancialProfile)
    (hex : p.monthly_expenses = q.monthly_expenses) (hs : p.savings = q.savings)
    (ht : targetMonths p.risk_tolerance = targetMonths q.risk_tolerance) :
    emergencyDeduction p = emergencyDeduction q := by
  unfold emergencyDeduction burnRateMonths
  rw [hex, hs, ht]

theorem mem_emergencyAlert_type (p : FinancialProfile) (a : Alert)
    (h : a ∈ emergencyAlert p) : a.alert_type = "emergency_fund_shortfall" := by
  unfold emergencyAlert at h
  split at h <;> simp at h
  subst h; rfl

theorem mem_healthAlert_type (p : FinancialProfile) (a : Alert)
    (h : a ∈ healthAlert p) : a.alert_type = "missing_health_insurance" := by
  unfold healthAlert at h
  split at h <;> simp at h
  subst h; rfl

theorem mem_rentersAlert_type (p : FinancialProfile) (a : Alert)
    (h : a ∈ rentersAlert p) : a.alert_type = "missing_renters_insurance" := by
  unfold rentersAlert at h
  split at h <;> simp at h
  subst h; rfl

theorem mem_lifeAlert_type (p : FinancialProfile) (a : Alert)
    (h : a ∈ lifeAlert p) : a.alert_type = "missing_life_insurance" := by
  unfold lifeAlert at h
  split at h <;> simp at h
  subst h; rfl

theorem mem_overspendingAlert_type (p : FinancialProfile) (td : ℚ) (a : Alert)
    (h : a ∈ overspendingAlert p td) : a.alert_type = "overspending" := by
  unfold overspendingAlert at h
  split at h <;> simp at h
  subst h; rfl

theorem mem_budgetAlerts_type (p : FinancialProfile) (ct : List (String × ℚ))
    (a : Alert) (h : a ∈ budgetAlerts p ct) :
    a.alert_type = "budget_exceeded" := by
  unfold budgetAlerts at h
  split at h
  · simp at h
  · rw [List.mem_filterMap] at h
    obtain ⟨cl, _, hcl⟩ := h
    split at hcl
    · rw [Option.some.injEq] at hcl
      subst hcl; rfl
    · exact absurd hcl (by simp)

theorem autoAlert_of_no_debits (p : FinancialProfile) :
    autoAlert p 0 = [] := by
  simp [autoAlert]

/-- C1 counterexample: on the Scenario A input (income 5000, expenses
4000, savings 24000, no dependents, medium risk, all insurance flags
false, no budgets, no transactions) the returned score is NOT 80: the
insurance deduction also counts the missing auto coverage, giving
100 - 0 - 30 - 0 = 70. -/
theorem scenarioA_score_ne_80 :
    (analyze_financial_protection scenarioA []).score ≠ 80 := by
  norm_num +decide [analyze_financial_protection, scoreOf, missingInsurance,
    emergencyDeduction, cashflowDeduction, monthlyNet, burnRateMonths,
    targetMonths, scenarioA]

/-- C1 (amended): on the Scenario A input, `analyze_financial_protection`
returns score = 70 (the insurance deduction subtracts 10 for each of
health, renters AND auto coverage, even though the missing_auto_insurance
alert is suppressed because total_debits = 0), emits no
emergency_fund_shortfall alert and no missing_auto_insurance alert, and
emits exactly the missing_health_insurance and missing_renters_insurance
alerts (no missing_life_insurance since dependents = 0). -/
theorem scenarioA_analysis :
    (analyze_financial_protection scenarioA []).score = 70 ∧
    (analyze_financial_protection scenarioA []).alerts.map Alert.alert_type
      = ["missing_health_insurance", "missing_renters_insurance"] := by
  norm_num +decide [analyze_financial_protection, scoreOf, alertsOf, statsOf,
    emergencyAlert, healthAlert, rentersAlert, autoAlert, lifeAlert,
    overspendingAlert, budgetAlerts, missingInsurance, emergencyDeduction,
    cashflowDeduction, monthlyNet, burnRateMonths, targetMonths,
    totalDebits, categoryTotals, aggregate, scenarioA]

/-- C2 counterexample: the stored `stats["monthly_net"]` is the rounded
value, not the exact raw difference: for income 0.001 and expenses 0 the
stored value is 0 while the exact difference is 0.001. -/
theorem stats_monthly_net_not_exact :
    ¬ ((analyze_financial_protection tinyProfile []).stats.lookup
          ("monthly_net")
        = some (tinyProfile.monthly_income - tinyProfile.monthly_expenses)) := by
  have h : (analyze_financial_protection tinyProfile []).stats.lookup
      ("monthly_net") = some (round2 (monthlyNet tinyProfile)) := rfl
  rw [h]
  norm_num [monthlyNet, round2, roundHalfEven, tinyProfile]

/-- C2 (amended): for every profile and transaction list, the stats entry
`monthly_net` equals `round2 (monthly_income - monthly_expenses)` — the
raw difference rounded to two decimal places (`round(monthly_net, 2)` in
the code), not the unrounded difference. -/
theorem stats_monthly_net_rounded (p : FinancialProfile)
    (ts : List Transaction) :
    (analyze_financial_protection p ts).stats.lookup ("monthly_net")
      = some (round2 (p.monthly_income - p.monthly_expenses)) := rfl

/-- C3: for every input profile and transaction list, the score returned
by `analyze_financial_protection` lies in the closed interval [0, 100],
because of the final clamp `max(0, min(100, score))`. -/
theorem score_in_range (p : FinancialProfile) (ts : List Transaction) :
    0 ≤ (analyze_financial_protection p ts).score ∧
    (analyze_financial_protection p ts).score ≤ 100 :=
  ⟨le_max_left 0 _, max_le (by norm_num) (min_le_left 100 _)⟩

/-- C4: for every profile, `burn_rate_months` is `savings / expenses`
when the monthly expenses are positive, and exactly 12 when they are
zero. -/
theorem burn_rate_months_spec (p : FinancialProfile) :
    (0 < p.monthly_expenses →
      burnRateMonths p = p.savings / p.monthly_expenses) ∧
    (p.monthly_expenses = 0 → burnRateMonths p = 12) := by
  constructor <;> intro h <;> simp [burnRateMonths, h]

/-- C4 witness: Scenario A has positive expenses, `tinyProfile` has zero
expenses. -/
theorem burn_rate_months_spec_witness :
    burnRateMonths scenarioA = scenarioA.savings / scenarioA.monthly_expenses ∧
    burnRateMonths tinyProfile = 12 :=
  ⟨(burn_rate_months_spec scenarioA).1 (by norm_num [scenarioA]),
   (burn_rate_months_spec tinyProfile).2 rfl⟩

/-- C5: transactions with amount ≤ 0 contribute nothing to the
aggregation (filtering them away leaves `total_debits` and every category
total unchanged), and when every transaction with positive amount has a
truthy (non-empty) category, the per-category totals sum to
`total_debits`. -/
theorem aggregate_nonpos_and_category_sum (ts : List Transaction) :
    aggregate ts = aggregate (ts.filter fun t => decide (0 < t.amount)) ∧
    ((∀ t ∈ ts, 0 < t.amount → catTruthy t.category = true) →
      ((aggregate ts).2.map Prod.snd).sum = (aggregate ts).1) := by
  constructor
  · exact (foldl_aggStep_filter ts (0, [])).symm
  · intro h
    have hh := foldl_aggStep_valSum ts (0, []) h
    simpa [aggregate] using hh

/-- C5 witness: a list with one categorized outflow and one inflow. -/
theorem aggregate_nonpos_and_category_sum_witness :
    aggregate [tFoodA, tInflowA]
      = aggregate ([tFoodA, tInflowA].filter fun t => decide (0 < t.amount)) ∧
    ((aggregate [tFoodA, tInflowA]).2.map Prod.snd).sum
      = (aggregate [tFoodA, tInflowA]).1 :=
  ⟨(aggregate_nonpos_and_category_sum [tFoodA, tInflowA]).1,
   (aggregate_nonpos_and_category_sum [tFoodA, tInflowA]).2 (by decide)⟩

/-- C6: for every transaction list and every permutation of it, the
aggregation produces the same `total_debits` and the same per-category
totals. -/
theorem aggregate_perm_invariant (ts ts' : List Transaction)
    (h : ts.Perm ts') :
    totalDebits ts = totalDebits ts' ∧
    ∀ c, catGet (categoryTotals ts) c = catGet (categoryTotals ts') c := by
  constructor
  · show (aggregate ts).1 = (aggregate ts').1
    rw [aggregate, aggregate, foldl_aggStep_fst, foldl_aggStep_fst]
    exact congrArg (0 + ·) (List.Perm.sum_eq (h.map _))
  · intro c
    show catGet (aggregate ts).2 c = catGet (aggregate ts').2 c
    rw [aggregate, aggregate, foldl_aggStep_catGet, foldl_aggStep_catGet]
    exact congrArg (catGet [] c + ·) (List.Perm.sum_eq (h.map _))

/-- C6 witness: swapping a two-element transaction list. -/
theorem aggregate_perm_invariant_witness :
    totalDebits [tFoodA, tRentA] = totalDebits [tRentA, tFoodA] ∧
    catGet (categoryTotals [tFoodA, tRentA]) ("food")
      = catGet (categoryTotals [tRentA, tFoodA]) ("food") :=
  ⟨(aggregate_perm_invariant [tFoodA, tRentA] [tRentA, tFoodA]
      (List.Perm.swap tRentA tFoodA [])).1,
   (aggregate_perm_invariant [tFoodA, tRentA] [tRentA, tFoodA]
      (List.Perm.swap tRentA tFoodA [])).2 ("food")⟩

/-- C7: for every profile whose risk_tolerance is outside
low/medium/high, the conditional chain falls through to target_months =
9, the same value as "low", both for the emergency_fund_shortfall rule
and for the emergency-fund score deduction. -/
theorem risk_tolerance_fallthrough (p : FinancialProfile)
    (_h1 : p.risk_tolerance ≠ "low") (h2 : p.risk_tolerance ≠ "medium")
    (h3 : p.risk_tolerance ≠ "high") :
    targetMonths p.risk_tolerance = 9 ∧
    emergencyAlert p = emergencyAlert { p with risk_tolerance := "low" } ∧
    emergencyDeduction p
      = emergencyDeduction { p with risk_tolerance := "low" } := by
  have ht : targetMonths p.risk_tolerance = 9 := by simp [targetMonths, h2, h3]
  have ht2 : targetMonths ({ p with risk_tolerance := "low" } :
      FinancialProfile).risk_tolerance = 9 := rfl
  exact ⟨ht,
    emergencyAlert_congr _ _ rfl rfl rfl (by rw [ht, ht2]),
    emergencyDeduction_congr _ _ rfl rfl (by rw [ht, ht2])⟩

/-- C7 witness: a profile with risk_tolerance "aggressive". -/
theorem risk_tolerance_fallthrough_witness :
    targetMonths fallthroughProfile.risk_tolerance = 9 ∧
    emergencyAlert fallthroughProfile
      = emergencyAlert { fallthroughProfile with risk_tolerance := "low" } ∧
    emergencyDeduction fallthroughProfile
      = emergencyDeduction { fallthroughProfile with risk_tolerance := "low" } :=
  risk_tolerance_fallthrough fallthroughProfile (by decide) (by decide)
    (by decide)

/-- C8 counterexample: on the Scenario A input the summary does NOT
render the monthly net with one decimal place (the code uses `:.2f`):
the actual summary differs from the sentence built with a one-decimal
rendering of the net. -/
theorem summary_net_not_one_decimal :
    (analyze_financial_protection scenarioA []).summary ≠
      "Protection score 70/100. Net cash flow " ++
      fmtFixed 1 (monthlyNet scenarioA) ++
      " per month. Emergency fund covers " ++
      fmtFixed 1 (burnRateMonths scenarioA) ++
      " months (target 6). Generated 2 alerts." := by
  norm_num +decide [analyze_financial_protection, summaryOf, scoreOf, alertsOf,
    statsOf, emergencyAlert, healthAlert, rentersAlert, autoAlert, lifeAlert,
    overspendingAlert, budgetAlerts, missingInsurance, emergencyDeduction,
    cashflowDeduction, monthlyNet, burnRateMonths, targetMonths,
    totalDebits, categoryTotals, aggregate, scenarioA, fmtFixed, roundHalfEven]

/-- C8 (amended): for every input, the summary is the formatted sentence
embedding the score, the monthly net rendered with TWO decimal places,
the burn rate rendered with one decimal place together with the target
months, and the alert count. -/
theorem summary_format (p : FinancialProfile) (ts : List Transaction) :
    (analyze_financial_protection p ts).summary =
      "Protection score " ++
      toString (analyze_financial_protection p ts).score ++
      "/100. Net cash flow " ++ fmtFixed 2 (monthlyNet p) ++
      " per month. Emergency fund covers " ++
      fmtFixed 1 (burnRateMonths p) ++ " months (target " ++
      toString (targetMonths p.risk_tolerance) ++ "). Generated " ++
      toString (analyze_financial_protection p ts).alerts.length ++
      " alerts." := rfl

/-- C9: on the Scenario B input (income 0, expenses 1000, savings 0, all
insurance flags true, no dependents, risk medium, no transactions):
burn_rate_months = 0, the emergency deduction is 40, no insurance is
missing, the monthly net is -1000 giving the 20-point cash-flow
deduction, exactly one alert is emitted (emergency_fund_shortfall with
severity high, since 0 < 3), and the final score is 40. -/
theorem scenarioB_analysis :
    burnRateMonths scenarioB = 0 ∧
    emergencyDeduction scenarioB = 40 ∧
    missingInsurance scenarioB = 0 ∧
    monthlyNet scenarioB = -1000 ∧
    cashflowDeduction scenarioB = 20 ∧
    (analyze_financial_protection scenarioB []).alerts.map
        (fun a => (a.alert_type, a.severity))
      = [("emergency_fund_shortfall", "high")] ∧
    (analyze_financial_protection scenarioB []).score = 40 := by
  norm_num +decide [analyze_financial_protection, scoreOf, alertsOf, statsOf,
    emergencyAlert, healthAlert, rentersAlert, autoAlert, lifeAlert,
    overspendingAlert, budgetAlerts, missingInsurance, emergencyDeduction,
    cashflowDeduction, monthlyNet, burnRateMonths, targetMonths,
    totalDebits, categoryTotals, aggregate, scenarioB]

/-- C10: when insurance_auto is false and the transactions have no
positive amount (total_debits = 0), no missing_auto_insurance alert is
emitted, yet the insurance score deduction still counts auto coverage as
missing: it is 10 points larger than for the same profile with
insurance_auto set. -/
theorem auto_penalty_without_alert (p : FinancialProfile)
    (ts : List Transaction) (h1 : p.insurance_auto = false)
    (h2 : totalDebits ts = 0) :
    "missing_auto_insurance" ∉
      (analyze_financial_protection p ts).alerts.map Alert.alert_type ∧
    (missingInsurance p : ℤ) * 10
      = (missingInsurance { p with insurance_auto := true } : ℤ) * 10 + 10 := by
  constructor
  · intro hmem
    rw [List.mem_map] at hmem
    obtain ⟨a, ha, hty⟩ := hmem
    have ha2 : a ∈ alertsOf p ts := ha
    unfold alertsOf at ha2
    rw [h2, autoAlert_of_no_debits] at ha2
    simp only [List.mem_append, List.append_nil, List.not_mem_nil] at ha2
    rcases ha2 with ((((h | h) | h) | h) | h) | h
    · rw [mem_emergencyAlert_type p a h] at hty; exact absurd hty (by decide)
    · rw [mem_healthAlert_type p a h] at hty; exact absurd hty (by decide)
    · rw [mem_rentersAlert_type p a h] at hty; exact absurd hty (by decide)
    · rw [mem_lifeAlert_type p a h] at hty; exact absurd hty (by decide)
    · rw [mem_overspendingAlert_type p 0 a h] at hty
      exact absurd hty (by decide)
    · rw [mem_budgetAlerts_type p (categoryTotals ts) a h] at hty
      exact absurd hty (by decide)
  · simp [missingInsurance, h1]
    ring

/-- C10 witness: Scenario A (auto flag off, empty transaction list). -/
theorem auto_penalty_without_alert_witness :
    "missing_auto_insurance" ∉
      (analyze_financial_protection scenarioA []).alerts.map Alert.alert_type ∧
    (missingInsurance scenarioA : ℤ) * 10
      = (missingInsurance { scenarioA with insurance_auto := true } : ℤ) * 10
        + 10 :=
  auto_penalty_without_alert scenarioA [] rfl rfl
